import Mathlib

/-!
Shallow embedding of `main.py` of the kuma-proxy-checker repository:
a proxy health checker that probes each configured proxy through a test
HTTP request with bounded retries, classifies the outcome, and pushes a
status line to an Uptime-Kuma style endpoint.

The network is abstracted as an environment: each probe attempt is given
the `HttpResult` the HTTP layer would produce (a completed response with
a status code and a measured latency, or a raised exception carrying its
human-readable message).  All control flow, classification, message
building and counting of probe invocations and inter-attempt delays is
translated directly from the source.
-/

namespace ProxyChecker

/-- `ProxyTarget` dataclass of `main.py` (lines 17-21): one monitored proxy.
`remark` is `Optional[str]`. -/
structure ProxyTarget where
  proxy : String
  push_url : String
  remark : Option String
deriving Repr, DecidableEq

/-- `AppConfig` dataclass of `main.py` (lines 24-32). `expected_status`,
`retries` and `interval_minutes` are Python `int` (may be negative), the
two delay fields are Python `float`. -/
structure AppConfig where
  test_url : String
  expected_status : Int
  retries : Int
  timeout_seconds : Float
  retry_delay_seconds : Float
  interval_minutes : Int
  targets : List ProxyTarget

/-- Outcome of the HTTP layer for one attempt: either the GET completed
with a status code (latency measured in whole milliseconds), or it raised
an exception whose `str(e)` is `msg`. -/
inductive HttpResult where
  | response (status : Int) (elapsed_ms : Nat)
  | exc (msg : String)
deriving Repr, DecidableEq

/-- `ProxyTester.test_once` (lines 120-136): classify one attempt.
Returns `(ok, ping, err)` exactly as the Python tuple:
status equal to `expected_status` gives `(True, elapsed_ms, None)`,
any other status gives `(False, None, None)`, and an exception `e`
gives `(False, None, str(e))`. -/
def test_once (cfg : AppConfig) (h : HttpResult) : Bool × Option Nat × Option String :=
  match h with
  | .response status elapsed_ms =>
    if status = cfg.expected_status then (true, some elapsed_ms, none)
    else (false, none, none)
  | .exc e => (false, none, some e)

/-- What one `test_with_retries` call did: the returned triple
`(ok, ping, message)`, how many times `test_once` was invoked, and the
list of inter-attempt `asyncio.sleep` durations, in order. -/
structure RetryTrace where
  result : Bool × Option Nat × String
  probes : Nat
  sleeps : List Float

/-- Body of the `for attempt in range(1, retries + 1)` loop of
`ProxyTester.test_with_retries` (lines 138-165), with the probe outcome
of attempt `n` supplied by `probe n`.  `fuel` is the number of loop
iterations still to run; falling out of the loop returns
`(False, None, "FAILED")` (line 165).  An error returns
`(False, None, str(err))` at once (line 145), a success returns
`(True, ping, "OK")` at once (line 150), and a soft failure sleeps
`retry_delay_seconds` when `attempt < retries` (lines 161-162) before
the next iteration. -/
def test_with_retries_go (cfg : AppConfig) (probe : Nat → HttpResult) :
    Nat → Nat → RetryTrace
  | _attempt, 0 => ⟨(false, none, "FAILED"), 0, []⟩
  | attempt, fuel + 1 =>
    let r := test_once cfg (probe attempt)
    match r.2.2 with
    | some err => ⟨(false, none, err), 1, []⟩
    | none =>
      if r.1 then ⟨(true, r.2.1, "OK"), 1, []⟩
      else
        let t := test_with_retries_go cfg probe (attempt + 1) fuel
        if (attempt : Int) < cfg.retries then
          ⟨t.result, t.probes + 1, cfg.retry_delay_seconds :: t.sleeps⟩
        else
          ⟨t.result, t.probes + 1, t.sleeps⟩

/-- `ProxyTester.test_with_retries` (lines 138-165): `range(1, retries+1)`
iterates `max 0 retries = retries.toNat` times starting at attempt 1. -/
def test_with_retries (cfg : AppConfig) (probe : Nat → HttpResult) : RetryTrace :=
  test_with_retries_go cfg probe 1 cfg.retries.toNat

/-- Python `str.lower()`, character by character (the schemes concerned
are ASCII). -/
def lower (s : String) : String := String.mk (s.toList.map Char.toLower)

/-- Python `str.strip() == ""` test: true when the string is empty or
entirely whitespace ("blank"). -/
def is_blank (s : String) : Bool := s.toList.all Char.isWhitespace

/-- `ALLOWED_PROXY_SCHEMES` (lines 50-56). -/
def ALLOWED_PROXY_SCHEMES : List String :=
  ["http", "https", "socks4", "socks5", "socks5h"]

/-- A character allowed after the first one in a URL scheme, per CPython
`urllib.parse.scheme_chars` (ASCII letters, digits, `+`, `-`, `.`). -/
def scheme_char (c : Char) : Bool :=
  c.isAlphanum || c == '+' || c == '-' || c == '.'

/-- Modelled from CPython 3.11 `urllib.parse.urlsplit` pre-parse
sanitization: strip leading WHATWG C0 control characters and spaces
(codepoints up to 0x20, leading only), then remove every tab, carriage
return and line feed anywhere in the URL. -/
def sanitize_url (url : String) : List Char :=
  (url.toList.dropWhile (fun c => c.toNat ≤ 32)).filter
    (fun c => !(c == '\t' || c == '\r' || c == '\n'))

/-- Modelled from CPython `urlsplit` scheme recognition on the sanitized
URL: when the text before the first colon (the colon not first, the
first character an ASCII letter, the rest scheme characters) is a
well-formed scheme, return it lower-cased together with the remainder
after the colon; otherwise the scheme is empty and the URL is left
whole. -/
def split_scheme (cs : List Char) : List Char × List Char :=
  match cs.findIdx? (fun c => c == ':') with
  | none => ([], cs)
  | some i =>
    if i = 0 then ([], cs)
    else
      match cs.take i with
      | [] => ([], cs)
      | c0 :: rest =>
        if c0.isAlpha ∧ rest.all scheme_char then
          ((c0 :: rest).map Char.toLower, cs.drop (i + 1))
        else ([], cs)

/-- Modelled from CPython `urllib.parse._splitnetloc`: the netloc
extends to the first '/', '?' or '#'. -/
def split_netloc (cs : List Char) : List Char :=
  cs.takeWhile (fun c => !(c == '/' || c == '?' || c == '#'))

/-- Python `str.split(sep)` on a one-character separator, empty pieces
kept. -/
def splitOnChar (sep : Char) : List Char → List (List Char)
  | [] => [[]]
  | c :: cs =>
    match splitOnChar sep cs with
    | [] => [[c]]
    | r :: rs => if c = sep then [] :: r :: rs else (c :: r) :: rs

/-- Python `str.partition(sep)` at a one-character separator: the
prefix, and the suffix after the first occurrence when there is one. -/
def partitionChar (sep : Char) : List Char → List Char × Option (List Char)
  | [] => ([], none)
  | c :: cs =>
    if c = sep then ([], some cs)
    else
      let p := partitionChar sep cs
      (c :: p.1, p.2)

/-- A hexadecimal digit, per `ipaddress._BaseV6._HEX_DIGITS`
(`0123456789ABCDEFabcdef`). -/
def hex_digit (c : Char) : Bool :=
  c.isDigit || (97 ≤ c.toNat && c.toNat ≤ 102) || (65 ≤ c.toNat && c.toNat ≤ 70)

/-- Numeric value of a decimal-digit string. -/
def dec_val (s : List Char) : Nat :=
  s.foldl (fun n c => 10 * n + (c.toNat - 48)) 0

/-- Modelled from CPython 3.11 `ipaddress.IPv4Address._parse_octet`:
nonempty, ASCII decimal digits only, at most 3 characters, no leading
zero unless the octet is exactly "0", and value at most 255. -/
def valid_octet (s : List Char) : Bool :=
  !s.isEmpty && s.all Char.isDigit && s.length ≤ 3 &&
    (s == ['0'] || s.headD ' ' != '0') && dec_val s ≤ 255

/-- Modelled from CPython 3.11 `ipaddress.IPv4Address`: no '/', and
exactly four dot-separated strict octets. -/
def valid_ipv4 (s : List Char) : Bool :=
  !s.contains '/' &&
    (let octets := splitOnChar '.' s
     octets.length == 4 && octets.all valid_octet)

/-- Modelled from CPython 3.11 `ipaddress.IPv6Address._parse_hextet`:
hexadecimal digits only, at most 4 of them, and nonempty (an empty
hextet fails `int(s, 16)`). -/
def valid_hextet (s : List Char) : Bool :=
  s.all hex_digit && s.length ≤ 4 && !s.isEmpty

/-- Modelled from CPython 3.11
`ipaddress.IPv6Address._ip_int_from_string`, validity only: nonempty
address, at least three colon-separated parts, an optional IPv4-style
dotted suffix replaced by two hextets, at most nine parts, at most one
interior empty part (the `::` skip), a leading or trailing single colon
only as part of a leading or trailing `::`, at least one group actually
skipped when `::` is present, exactly eight parts otherwise, and every
parsed part a valid hextet. -/
def valid_ipv6_noscope (s : List Char) : Bool :=
  if s.isEmpty then false
  else
    let parts0 := splitOnChar ':' s
    if parts0.length < 3 then false
    else
      let lastP := parts0.getLastD []
      let dotted := lastP.contains '.'
      if dotted && !valid_ipv4 lastP then false
      else
        let parts := if dotted then parts0.dropLast ++ [['0'], ['0']] else parts0
        if parts.length > 9 then false
        else
          let interior := (parts.drop 1).dropLast
          if 2 ≤ (interior.filter List.isEmpty).length then false
          else
            let headE := (parts.headD [' ']).isEmpty
            let tailE := (parts.getLastD [' ']).isEmpty
            let n := parts.length
            let hexOk := parts.all (fun p => p.isEmpty || valid_hextet p)
            match interior.findIdx? List.isEmpty with
            | some j =>
              let skip := j + 1
              (!headE || skip == 1) && (!tailE || skip == n - 2) &&
                ((if headE then skip - 1 else skip) +
                  (if tailE then n - skip - 2 else n - skip - 1) ≤ 7) && hexOk
            | none => !headE && !tailE && n == 8 && hexOk

/-- Modelled from CPython 3.11 `ipaddress.IPv6Address`: no '/', an
optional nonempty scope id (holding no further '%') after a single '%',
and a valid address part. -/
def valid_ipv6 (s : List Char) : Bool :=
  if s.contains '/' then false
  else
    let p := partitionChar '%' s
    match p.2 with
    | none => valid_ipv6_noscope p.1
    | some scope =>
      !scope.isEmpty && !scope.contains '%' && valid_ipv6_noscope p.1

/-- Modelled from CPython 3.11 `urllib.parse._check_bracketed_host`: a
host starting with 'v' must be an IPvFuture literal
(`v`, one or more hex digits, '.', then a nonempty newline-free tail);
any other host must be a valid IPv6 address — a bracketed IPv4 address
or anything else raises `ValueError`. -/
def check_bracketed_host (host : List Char) : Bool :=
  match host with
  | 'v' :: rest =>
    let hex := rest.takeWhile hex_digit
    let after := rest.drop hex.length
    !hex.isEmpty &&
      (match after with
       | '.' :: t => !t.isEmpty && !t.contains '\n'
       | _ => false)
  | _ => if valid_ipv4 host then false else valid_ipv6 host

/-- The scheme component CPython's `urlparse` reports for this URL
(defined whether or not `urlparse` raises): the scheme of the sanitized
URL. -/
def urlparse_scheme (url : String) : String :=
  String.mk (split_scheme (sanitize_url url)).1

/-- Modelled from CPython 3.11 `urllib.parse.urlparse`, restricted to
what `validate_proxy_url` consumes: the sanitized URL's scheme, or the
`ValueError` that `urlsplit` raises when the URL has a netloc (the rest
after the scheme starts with "//") whose bracket use is unbalanced or
whose bracketed host is invalid.  The model keeps the fact of the
error; for a bad bracketed host it does not reproduce CPython's exact
message text. -/
def urlparse (url : String) : Except String String :=
  let cs := sanitize_url url
  let sr := split_scheme cs
  let rest := sr.2
  if rest.take 2 = ['/', '/'] then
    let netloc := split_netloc (rest.drop 2)
    if (netloc.contains '[' && !netloc.contains ']') ||
        (netloc.contains ']' && !netloc.contains '[') then
      .error "Invalid IPv6 URL"
    else if netloc.contains '[' && netloc.contains ']' then
      let bracketed :=
        ((netloc.dropWhile (fun c => !(c == '['))).drop 1).takeWhile
          (fun c => !(c == ']'))
      if check_bracketed_host bracketed then .ok (String.mk sr.1)
      else .error "Invalid bracketed host"
    else .ok (String.mk sr.1)
  else .ok (String.mk sr.1)

/-- `validate_proxy_url` (lines 59-62): `urlparse(proxy)` may itself
raise a `ValueError`, which propagates; otherwise raise `ValueError`
when the lower-cased parsed scheme is not in the allow-list. -/
def validate_proxy_url (proxy : String) : Except String Unit :=
  match urlparse proxy with
  | .error e => .error e
  | .ok parsed =>
    if ALLOWED_PROXY_SCHEMES.contains (lower parsed) then Except.ok ()
    else Except.error ("Unsupported proxy scheme: " ++ proxy)

/-- One entry of the raw `targets` array: each key may be absent. -/
structure RawTarget where
  proxy : Option String
  push_url : Option String
  remark : Option String
deriving Repr, DecidableEq

/-- The raw JSON config document, with each required key optionally
present (a present key carries a value of the type the code converts
it to). -/
structure RawConfig where
  test_url : Option String
  expected_status : Option Int
  retries : Option Int
  timeout_seconds : Option Float
  retry_delay_seconds : Option Float
  interval_minutes : Option Int
  targets : Option (List RawTarget)

/-- The per-item body of the `for item in raw["targets"]` loop of
`load_config` (lines 84-96): require `proxy` and `push_url`, validate the
proxy scheme, and normalize a blank remark to absent. -/
def load_target (item : RawTarget) : Except String ProxyTarget :=
  match item.proxy, item.push_url with
  | some proxy, some push_url =>
    match validate_proxy_url proxy with
    | .error e => .error e
    | .ok _ =>
      let remark := match item.remark with
        | some r => if is_blank r then none else some r
        | none => none
      .ok ⟨proxy, push_url, remark⟩
  | _, _ => .error "Each target must contain proxy and push_url"

/-- The whole `targets` loop of `load_config`, stopping at the first
failing item. -/
def load_targets : List RawTarget → Except String (List ProxyTarget)
  | [] => .ok []
  | item :: rest =>
    match load_target item with
    | .error e => .error e
    | .ok t =>
      match load_targets rest with
      | .error e => .error e
      | .ok ts => .ok (t :: ts)

/-- `load_config` (lines 65-109): check every required key is present (in
source order), build the target list, reject an empty one, and assemble
the `AppConfig`. -/
def load_config (raw : RawConfig) : Except String AppConfig :=
  match raw.test_url with
  | none => .error "Missing config field: test_url"
  | some test_url =>
  match raw.expected_status with
  | none => .error "Missing config field: expected_status"
  | some expected_status =>
  match raw.retries with
  | none => .error "Missing config field: retries"
  | some retries =>
  match raw.timeout_seconds with
  | none => .error "Missing config field: timeout_seconds"
  | some timeout_seconds =>
  match raw.retry_delay_seconds with
  | none => .error "Missing config field: retry_delay_seconds"
  | some retry_delay_seconds =>
  match raw.interval_minutes with
  | none => .error "Missing config field: interval_minutes"
  | some interval_minutes =>
  match raw.targets with
  | none => .error "Missing config field: targets"
  | some raw_targets =>
  match load_targets raw_targets with
  | .error e => .error e
  | .ok targets =>
    if targets.isEmpty then .error "No targets defined"
    else .ok ⟨test_url, expected_status, retries, timeout_seconds,
              retry_delay_seconds, interval_minutes, targets⟩

/-- The display identifier computed in `ProxyMonitorApp.check_target`
(line 202): `target.remark if (target.remark and str(target.remark).strip())
else target.proxy` — the remark when present, non-empty and non-blank,
else the proxy URL. -/
def display_identifier (t : ProxyTarget) : String :=
  match t.remark with
  | some r => if r ≠ "" ∧ is_blank r = false then r else t.proxy
  | none => t.proxy

/-- The arguments of the single `notifier.send` call issued by
`check_target` (line 219). -/
structure Report where
  push_url : String
  status : String
  msg : String
  ping : Option Nat
deriving Repr, DecidableEq

/-- `ProxyMonitorApp.check_target` (lines 201-219): run the retry driver,
build the final message from `(ok, ping, message)` and the display
identifier, and send exactly one report. -/
def check_target (cfg : AppConfig) (probe : Nat → HttpResult) (t : ProxyTarget) : Report :=
  let identifier := display_identifier t
  let r := (test_with_retries cfg probe).result
  let ok := r.1
  let ping := r.2.1
  let message := r.2.2
  let final_message :=
    if ok then
      let ping_str := match ping with
        | some p => toString p ++ " ms"
        | none => ""
      "OK : " ++ identifier ++ " : OK (" ++ ping_str ++ ")"
    else if message = "FAILED" then
      "FAILED : " ++ identifier ++ " : FAILED"
    else
      "ERROR : " ++ identifier ++ " : " ++ message
  let status := if ok then "up" else "down"
  ⟨t.push_url, status, final_message, if ok then ping else none⟩

/-- `ProxyMonitorApp.run_cycle` (lines 221-224): `asyncio.gather` over
`check_target` for every configured target; the environment `env` gives
each target its per-attempt HTTP outcomes.  The gathered results are the
reports sent, in target order. -/
def run_cycle (cfg : AppConfig) (env : ProxyTarget → Nat → HttpResult) : List Report :=
  cfg.targets.map (fun t => check_target cfg (env t) t)

/-- `ProxyMonitorApp.run` (lines 226-236), unrolled with `fuel` available
loop iterations: returns the reports of each executed cycle, the number
of inter-cycle sleeps performed, and whether the loop reached `break`.
After each cycle the loop breaks when `run_once or interval_minutes <= 0`
(line 231); otherwise it sleeps `interval_minutes * 60` seconds and
repeats. -/
def run_loop (cfg : AppConfig) (env : ProxyTarget → Nat → HttpResult)
    (run_once : Bool) : Nat → List (List Report) × Nat × Bool
  | 0 => ([], 0, false)
  | fuel + 1 =>
    let reports := run_cycle cfg env
    if run_once || cfg.interval_minutes ≤ 0 then ([reports], 0, true)
    else
      let rest := run_loop cfg env run_once fuel
      (reports :: rest.1, rest.2.1 + 1, rest.2.2)

/-- What the monitoring endpoint does with the push GET request: complete
with an HTTP status code, or raise a transport exception. -/
inductive PushDelivery where
  | response (status : Int)
  | exc (msg : String)
deriving Repr, DecidableEq

/-- The line `UptimeKumaNotifier.send` logs: `"Push sent → <status>"` at
INFO on success, `"Push failed → <e>"` at ERROR on any caught failure. -/
inductive PushLog where
  | sent (status : String)
  | failed (err : String)
deriving Repr, DecidableEq

/-- The query parameters built in `UptimeKumaNotifier.send` (lines
174-178): `ping` is the integer when present, else the empty string. -/
def send_params (status msg : String) (ping : Option Nat) : List (String × String) :=
  [("status", status),
   ("msg", msg),
   ("ping", match ping with | some p => toString p | none => "")]

/-- `httpx.Response.raise_for_status`: raises unless the status code is a
2xx success. -/
def raise_for_status (status : Int) : Except String Unit :=
  if 200 ≤ status ∧ status ≤ 299 then .ok ()
  else .error ("Error response for url: status " ++ toString status)

/-- `UptimeKumaNotifier.send` (lines 173-187).  The result is `Except`:
an `.error` would mean an exception escaping to the caller, `.ok` carries
the parameters of the GET actually issued and the line logged.  The
`try`/`except Exception` body turns every delivery failure (transport
exception or `raise_for_status` on a non-2xx response) into a logged
`failed` line. -/
def send (push_url status msg : String) (ping : Option Nat)
    (delivery : PushDelivery) : Except String (String × List (String × String) × PushLog) :=
  let params := send_params status msg ping
  let attempt : Except String PushLog :=
    match delivery with
    | .exc e => .error e
    | .response code =>
      match raise_for_status code with
      | .error e => .error e
      | .ok _ => .ok (.sent status)
  match attempt with
  | .ok l => .ok (push_url, params, l)
  | .error e => .ok (push_url, params, .failed e)

/-! ## Concrete fixtures used by witnesses and counterexamples -/

/-- A concrete target with remark `"r"`. -/
def targetW : ProxyTarget := ⟨"http://proxy:8080", "http://kuma/push/a", some "r"⟩

/-- A concrete configuration: expected status 200, 3 retries,
a 1.5 s retry delay, interval 0 minutes, one target. -/
def cfgW : AppConfig :=
  ⟨"http://example.com/gen_204", 200, 3, 5.0, 1.5, 0, [targetW]⟩

/-- The same configuration with `retries = 0`. -/
def cfgZeroW : AppConfig :=
  ⟨"http://example.com/gen_204", 200, 0, 5.0, 1.5, 0, [targetW]⟩

/-- Probe environment: soft failure (status 404) on attempt 1, then a
hard error "boom" on attempt 2. -/
def probeExcW : Nat → HttpResult :=
  fun n => if n = 2 then .exc "boom" else .response 404 7

/-- Probe environment: every attempt is a soft failure (status 404). -/
def probeSoftW : Nat → HttpResult := fun _ => .response 404 7

/-- Probe environment: soft failures, then success with 950 ms latency
on attempt 3. -/
def probeOkW : Nat → HttpResult :=
  fun n => if n = 3 then .response 200 950 else .response 404 7

/-- Probe environment: every attempt raises an exception whose message
is exactly the string "FAILED". -/
def probeFailedMsgW : Nat → HttpResult := fun _ => .exc "FAILED"

/-- Environment for whole cycles: the same soft failure everywhere. -/
def envW : ProxyTarget → Nat → HttpResult := fun _ => probeSoftW

/-- A well-formed raw config document matching `cfgW`. -/
def rawOkW : RawConfig :=
  ⟨some "http://example.com/gen_204", some 200, some 3, some 5.0, some 1.5,
   some 0, some [⟨some "http://proxy:8080", some "http://kuma/push/a", some "r"⟩]⟩

/-- The raw `targets` entry with an "ftp" proxy scheme. -/
def rawFtpTargetW : RawTarget :=
  ⟨some "ftp://proxy:8080", some "http://kuma/push/a", none⟩

/-- The well-formed document with `targets: []`. -/
def rawEmptyTargetsW : RawConfig := { rawOkW with targets := some [] }

/-- The well-formed document with a target whose proxy scheme is "ftp". -/
def rawFtpW : RawConfig := { rawOkW with targets := some [rawFtpTargetW] }

/-- The well-formed document with `retries = 0`. -/
def rawRetriesZeroW : RawConfig := { rawOkW with retries := some 0 }

/-- The well-formed document with `retries = -2`. -/
def rawRetriesNegW : RawConfig := { rawOkW with retries := some (-2) }

/-- The raw `targets` entry whose proxy URL "http://[::1" has an
unbalanced bracketed netloc: its scheme is "http" (allow-listed), but
CPython's `urlparse` raises `ValueError("Invalid IPv6 URL")` on it. -/
def rawIpv6TargetW : RawTarget :=
  ⟨some "http://[::1", some "http://kuma/push/a", none⟩

/-- The well-formed document whose only target is `rawIpv6TargetW`. -/
def rawIpv6W : RawConfig := { rawOkW with targets := some [rawIpv6TargetW] }

/-- A target whose proxy " http://proxy:8080" carries a leading space,
which `urlparse` strips before extracting the scheme. -/
def rawSpaceTargetW : RawTarget :=
  ⟨some " http://proxy:8080", some "http://kuma/push/a", some "r"⟩

/-- The well-formed document whose only target is `rawSpaceTargetW`. -/
def rawSpaceW : RawConfig := { rawOkW with targets := some [rawSpaceTargetW] }

/-! ## Spec-side predicates for the config-validation claim

These predicates transcribe rejection causes as the claim lists them;
the theorems for that claim compare them with what `load_config`
(translated from the source) actually rejects. -/

/-- A required field of the raw document is absent. -/
def MissingField (raw : RawConfig) : Prop :=
  raw.test_url = none ∨ raw.expected_status = none ∨ raw.retries = none ∨
    raw.timeout_seconds = none ∨ raw.retry_delay_seconds = none ∨
    raw.interval_minutes = none ∨ raw.targets = none

/-- A target entry the amended claim says must be rejected: it lacks
`proxy` or `push_url`, or `urlparse` itself raises a `ValueError` on
its proxy URL, or the proxy URL's scheme is (case-insensitively)
outside the allow-list. -/
def BadTarget (item : RawTarget) : Prop :=
  item.proxy = none ∨ item.push_url = none ∨
    ∃ p, item.proxy = some p ∧
      ((urlparse p).isOk = false ∨
        lower (urlparse_scheme p) ∉ ALLOWED_PROXY_SCHEMES)

/-- The rejection conditions exactly as the original claim states them:
a required field absent, an empty targets list, a target lacking
`proxy` or `push_url`, or a proxy URL scheme outside the allow-list —
with no provision for `urlparse` raising on a URL whose scheme is
allow-listed. -/
def ClaimedRejection (raw : RawConfig) : Prop :=
  MissingField raw ∨ raw.targets = some [] ∨
    ∃ ts, raw.targets = some ts ∧ ∃ item ∈ ts,
      (item.proxy = none ∨ item.push_url = none ∨
        ∃ p, item.proxy = some p ∧
          lower (urlparse_scheme p) ∉ ALLOWED_PROXY_SCHEMES)

/-! ## Helper lemmas about the retry driver -/

/-- The probe outcome of attempt `i` is a soft failure: the request
completed with a status code different from the expected one. -/
def SoftAt (cfg : AppConfig) (probe : Nat → HttpResult) (i : Nat) : Prop :=
  ∃ s ms, probe i = .response s ms ∧ s ≠ cfg.expected_status

lemma test_once_of_soft {cfg : AppConfig} {probe : Nat → HttpResult} {i : Nat}
    (h : SoftAt cfg probe i) : test_once cfg (probe i) = (false, none, none) := by
  obtain ⟨s, ms, hp, hs⟩ := h
  simp [test_once, hp, hs]

lemma go_step_soft {cfg : AppConfig} {probe : Nat → HttpResult} {attempt fuel : Nat}
    (h : test_once cfg (probe attempt) = (false, none, none)) :
    test_with_retries_go cfg probe attempt (fuel + 1) =
      (let t := test_with_retries_go cfg probe (attempt + 1) fuel
       if (attempt : Int) < cfg.retries then
         ⟨t.result, t.probes + 1, cfg.retry_delay_seconds :: t.sleeps⟩
       else ⟨t.result, t.probes + 1, t.sleeps⟩) := by
  simp [test_with_retries_go, h]

lemma go_step_exc {cfg : AppConfig} {probe : Nat → HttpResult} {attempt fuel : Nat}
    {msg : String} (h : test_once cfg (probe attempt) = (false, none, some msg)) :
    test_with_retries_go cfg probe attempt (fuel + 1) = ⟨(false, none, msg), 1, []⟩ := by
  simp [test_with_retries_go, h]

lemma go_step_ok {cfg : AppConfig} {probe : Nat → HttpResult} {attempt fuel : Nat}
    {ms : Nat} (h : test_once cfg (probe attempt) = (true, some ms, none)) :
    test_with_retries_go cfg probe attempt (fuel + 1) = ⟨(true, some ms, "OK"), 1, []⟩ := by
  simp [test_with_retries_go, h]

lemma go_hard_error (cfg : AppConfig) (probe : Nat → HttpResult) :
    ∀ fuel attempt k msg, attempt ≤ k → k < attempt + fuel →
      probe k = .exc msg →
      (∀ i, attempt ≤ i → i < k → SoftAt cfg probe i) →
      (test_with_retries_go cfg probe attempt fuel).result = (false, none, msg) ∧
        (test_with_retries_go cfg probe attempt fuel).probes = k + 1 - attempt := by
  intro fuel
  induction fuel with
  | zero => intro attempt k msg h1 h2 _ _; omega
  | succ fuel ih =>
    intro attempt k msg h1 h2 hk hsoft
    rcases eq_or_lt_of_le h1 with rfl | hlt
    · have he : test_once cfg (probe attempt) = (false, none, some msg) := by
        simp [test_once, hk]
      rw [go_step_exc he]
      exact ⟨rfl, by simp⟩
    · have hsa := test_once_of_soft (hsoft attempt le_rfl hlt)
      have hrec := ih (attempt + 1) k msg hlt (by omega) hk
        (fun i hi1 hi2 => hsoft i (by omega) hi2)
      rw [go_step_soft hsa]
      split
      · exact ⟨hrec.1, by simp; omega⟩
      · exact ⟨hrec.1, by simp; omega⟩

lemma go_success (cfg : AppConfig) (probe : Nat → HttpResult) :
    ∀ fuel attempt k ms, attempt ≤ k → k < attempt + fuel →
      probe k = .response cfg.expected_status ms →
      (∀ i, attempt ≤ i → i < k → SoftAt cfg probe i) →
      (test_with_retries_go cfg probe attempt fuel).result = (true, some ms, "OK") ∧
        (test_with_retries_go cfg probe attempt fuel).probes = k + 1 - attempt := by
  intro fuel
  induction fuel with
  | zero => intro attempt k ms h1 h2 _ _; omega
  | succ fuel ih =>
    intro attempt k ms h1 h2 hk hsoft
    rcases eq_or_lt_of_le h1 with rfl | hlt
    · have he : test_once cfg (probe attempt) = (true, some ms, none) := by
        simp [test_once, hk]
      rw [go_step_ok he]
      exact ⟨rfl, by simp⟩
    · have hsa := test_once_of_soft (hsoft attempt le_rfl hlt)
      have hrec := ih (attempt + 1) k ms hlt (by omega) hk
        (fun i hi1 hi2 => hsoft i (by omega) hi2)
      rw [go_step_soft hsa]
      split
      · exact ⟨hrec.1, by simp; omega⟩
      · exact ⟨hrec.1, by simp; omega⟩

lemma go_all_soft (cfg : AppConfig) (probe : Nat → HttpResult) :
    ∀ (fuel attempt : Nat), (attempt : Int) + fuel = cfg.retries + 1 →
      (∀ i, attempt ≤ i → i < attempt + fuel → SoftAt cfg probe i) →
      test_with_retries_go cfg probe attempt fuel =
        ⟨(false, none, "FAILED"), fuel, List.replicate (fuel - 1) cfg.retry_delay_seconds⟩ := by
  intro fuel
  induction fuel with
  | zero => intro attempt _ _; simp [test_with_retries_go]
  | succ fuel ih =>
    intro attempt hcount hsoft
    have hsa := test_once_of_soft (hsoft attempt le_rfl (by omega))
    rw [go_step_soft hsa]
    have hrec := ih (attempt + 1) (by push_cast; push_cast at hcount; omega)
      (fun i hi1 hi2 => hsoft i (by omega) (by omega))
    rcases Nat.eq_zero_or_pos fuel with rfl | hpos
    · have hnot : ¬ ((attempt : Int) < cfg.retries) := by push_cast at hcount ⊢; omega
      simp [hrec, hnot, test_with_retries_go]
    · have hyes : (attempt : Int) < cfg.retries := by push_cast at hcount ⊢; omega
      have h2 : fuel - 1 + 1 = fuel := by omega
      simp only [hrec, if_pos hyes, Nat.add_sub_cancel]
      congr 1
      conv_rhs => rw [← h2]
      rw [List.replicate_succ]

/-! ## Claim theorems -/

/-- **C1.** For every target and cycle: if the probe of attempt `k`
(within the retry budget) raises a hard error with message `msg` after
soft failures on every earlier attempt, `test_with_retries` terminates
immediately with the terminal triple `(False, None, msg)` — that is,
`Down(reason="ERROR", detail=msg)` — and exactly `k` probe invocations
occur in total, i.e. zero further `test_once` calls for that target in
that cycle, no matter how much retry budget remains. -/
theorem hard_error_short_circuits (cfg : AppConfig) (probe : Nat → HttpResult)
    (k : Nat) (msg : String) (h1 : 1 ≤ k) (h2 : (k : Int) ≤ cfg.retries)
    (hk : probe k = .exc msg)
    (hsoft : ∀ i, 1 ≤ i → i < k → SoftAt cfg probe i) :
    (test_with_retries cfg probe).result = (false, none, msg) ∧
      (test_with_retries cfg probe).probes = k := by
  have hfuel : k < 1 + cfg.retries.toNat := by omega
  obtain ⟨ha, hb⟩ :=
    go_hard_error cfg probe cfg.retries.toNat 1 k msg h1 hfuel hk hsoft
  simp only [test_with_retries]
  exact ⟨ha, by omega⟩

/-- Witness for C1: with 3 retries, a soft failure on attempt 1 and a
hard error "boom" on attempt 2, the driver stops after exactly 2 probes
with the error detail. -/
theorem hard_error_short_circuits_witness :
    (test_with_retries cfgW probeExcW).result = (false, none, "boom") ∧
      (test_with_retries cfgW probeExcW).probes = 2 :=
  hard_error_short_circuits cfgW probeExcW 2 "boom" (by decide) (by decide)
    rfl
    (fun i hi1 hi2 => by
      have hi : i = 1 := by omega
      subst hi
      exact ⟨404, 7, rfl, by decide⟩)

/-- **C2.** Classification of a single probe attempt by `test_once`:
a response whose status equals `expected_status` is a success carrying
the measured latency; a completed response with any other status is a
soft failure with neither latency nor error detail; a raised exception
is a hard error carrying the exception's human-readable string. -/
theorem test_once_classification (cfg : AppConfig) :
    (∀ s ms, s = cfg.expected_status →
        test_once cfg (.response s ms) = (true, some ms, none)) ∧
    (∀ s ms, s ≠ cfg.expected_status →
        test_once cfg (.response s ms) = (false, none, none)) ∧
    (∀ e, test_once cfg (.exc e) = (false, none, some e)) := by
  refine ⟨?_, ?_, fun e => rfl⟩
  · intro s ms hs
    simp [test_once, hs]
  · intro s ms hs
    simp [test_once, hs]

/-- Witness for C2 at the concrete configuration expecting status 200. -/
theorem test_once_classification_witness :
    test_once cfgW (.response 200 950) = (true, some 950, none) ∧
      test_once cfgW (.response 404 7) = (false, none, none) ∧
      test_once cfgW (.exc "boom") = (false, none, some "boom") := by
  obtain ⟨h1, h2, h3⟩ := test_once_classification cfgW
  exact ⟨h1 200 950 (by decide), h2 404 7 (by decide), h3 "boom"⟩

/-- **C5.** With `retries = r ≥ 1` and a soft failure on every attempt,
the driver returns the terminal triple `(False, None, "FAILED")` —
`Down(reason="FAILED")` — makes exactly `r` probe invocations, and
performs exactly `r - 1` inter-attempt delays, each of
`retry_delay_seconds`, with no delay after the final attempt. -/
theorem all_soft_failures_exhaust (cfg : AppConfig) (probe : Nat → HttpResult)
    (r : Nat) (hr : 1 ≤ r) (hret : cfg.retries = (r : Int))
    (hsoft : ∀ i, 1 ≤ i → i ≤ r → SoftAt cfg probe i) :
    test_with_retries cfg probe =
      ⟨(false, none, "FAILED"), r, List.replicate (r - 1) cfg.retry_delay_seconds⟩ := by
  have hfuel : cfg.retries.toNat = r := by omega
  have h := go_all_soft cfg probe r 1 (by rw [hret]; push_cast; ring)
    (fun i hi1 hi2 => hsoft i hi1 (by omega))
  simp only [test_with_retries, hfuel]
  exact h

/-- Witness for C5: 3 retries, all soft failures: `FAILED`, 3 probes,
2 delays of the configured 1.5 s. -/
theorem all_soft_failures_exhaust_witness :
    test_with_retries cfgW probeSoftW =
      ⟨(false, none, "FAILED"), 3, List.replicate 2 cfgW.retry_delay_seconds⟩ :=
  all_soft_failures_exhaust cfgW probeSoftW 3 (by decide) (by decide)
    (fun i hi1 hi2 => ⟨404, 7, rfl, by decide⟩)

/-- **C6.** If attempt `k` (within the budget) succeeds with latency
`ms` after soft failures on all earlier attempts, the driver returns
`(True, ms, "OK")` — `Up(ms)` — having made exactly `k` probe
invocations: a success terminates the retry loop immediately with no
further attempts.  Instantiating `k = retries` gives the claim's run of
soft failures on attempts `1..retries-1` followed by success on attempt
`retries`, with exactly `retries` probe invocations. -/
theorem success_terminates_retries (cfg : AppConfig) (probe : Nat → HttpResult)
    (k ms : Nat) (h1 : 1 ≤ k) (h2 : (k : Int) ≤ cfg.retries)
    (hk : probe k = .response cfg.expected_status ms)
    (hsoft : ∀ i, 1 ≤ i → i < k → SoftAt cfg probe i) :
    (test_with_retries cfg probe).result = (true, some ms, "OK") ∧
      (test_with_retries cfg probe).probes = k := by
  have hfuel : k < 1 + cfg.retries.toNat := by omega
  obtain ⟨ha, hb⟩ :=
    go_success cfg probe cfg.retries.toNat 1 k ms h1 hfuel hk hsoft
  simp only [test_with_retries]
  exact ⟨ha, by omega⟩

/-- Witness for C6: with `retries = 3`, soft failures on attempts 1 and
2 and a 200-status response with 950 ms latency on attempt 3, the driver
returns `Up(950)` after exactly 3 probes. -/
theorem success_terminates_retries_witness :
    (test_with_retries cfgW probeOkW).result = (true, some 950, "OK") ∧
      (test_with_retries cfgW probeOkW).probes = 3 :=
  success_terminates_retries cfgW probeOkW 3 950 (by decide) (by decide)
    rfl
    (fun i hi1 hi2 => by
      refine ⟨404, 7, ?_, by decide⟩
      have hi : i = 1 ∨ i = 2 := by omega
      rcases hi with rfl | rfl <;> rfl)

/-- **C3 (counterexample to the claim as stated).** A hard error whose
detail is exactly the string "FAILED" — the probe raises an exception
with message "FAILED" on attempt 1 (so the driver's terminal result is
the error triple after a single probe, not exhausted retries) — is
rendered by `check_target` as `"FAILED : r : FAILED"`, not as the
claimed `"ERROR : r : FAILED"`: line 211 of the source distinguishes the
error case from exhausted retries only by comparing the message with the
sentinel string "FAILED". -/
theorem error_detail_failed_collision :
    (test_with_retries cfgW probeFailedMsgW).result = (false, none, "FAILED") ∧
      (test_with_retries cfgW probeFailedMsgW).probes = 1 ∧
      (check_target cfgW probeFailedMsgW targetW).msg = "FAILED : r : FAILED" ∧
      (check_target cfgW probeFailedMsgW targetW).msg ≠ "ERROR : r : FAILED" :=
  ⟨by decide, by decide, by decide, by decide⟩

/-- **C3 (amended).** The report sent by `check_target` follows the
§4.3 table over the display identifier (the remark when present and
non-blank, else the proxy URL): `Up(ms)` gives message
`"OK : <id> : OK (<ms> ms)"`, status `"up"`, ping `ms`; `Down(FAILED)`
gives `"FAILED : <id> : FAILED"`, status `"down"`, no ping; and
`Down(ERROR, detail)` gives `"ERROR : <id> : <detail>"`, status
`"down"`, no ping — for every detail string **other than** `"FAILED"`;
a hard error whose detail is exactly `"FAILED"` is rendered as the
`Down(FAILED)` row instead (see `error_detail_failed_collision`). -/
theorem check_target_report_table (cfg : AppConfig) (probe : Nat → HttpResult)
    (t : ProxyTarget) :
    ((∀ rmk, t.remark = some rmk → is_blank rmk = false → display_identifier t = rmk) ∧
     (∀ rmk, t.remark = some rmk → is_blank rmk = true → display_identifier t = t.proxy) ∧
     (t.remark = none → display_identifier t = t.proxy)) ∧
    (∀ ms m, (test_with_retries cfg probe).result = (true, some ms, m) →
      check_target cfg probe t =
        ⟨t.push_url, "up",
         "OK : " ++ display_identifier t ++ " : OK (" ++ toString ms ++ " ms)",
         some ms⟩) ∧
    ((test_with_retries cfg probe).result = (false, none, "FAILED") →
      check_target cfg probe t =
        ⟨t.push_url, "down", "FAILED : " ++ display_identifier t ++ " : FAILED",
         none⟩) ∧
    (∀ detail, detail ≠ "FAILED" →
      (test_with_retries cfg probe).result = (false, none, detail) →
      check_target cfg probe t =
        ⟨t.push_url, "down", "ERROR : " ++ display_identifier t ++ " : " ++ detail,
         none⟩) := by
  refine ⟨⟨?_, ?_, ?_⟩, ?_, ?_, ?_⟩
  · intro rmk hr hblank
    have hne : rmk ≠ "" := by
      intro h
      rw [h] at hblank
      exact absurd hblank (by decide)
    simp [display_identifier, hr, hne, hblank]
  · intro rmk hr hblank
    simp [display_identifier, hr, hblank]
  · intro hn
    simp [display_identifier, hn]
  · intro ms m hres
    simp only [check_target, hres]
    simp [String.append_assoc]
  · intro hres
    simp only [check_target, hres]
    simp
  · intro detail hne hres
    simp only [check_target, hres]
    simp [hne]

/-- Witness for C3 (amended): all three rows of the table at the
concrete target with remark "r". -/
theorem check_target_report_table_witness :
    check_target cfgW probeOkW targetW =
      ⟨"http://kuma/push/a", "up", "OK : r : OK (950 ms)", some 950⟩ ∧
      check_target cfgW probeSoftW targetW =
        ⟨"http://kuma/push/a", "down", "FAILED : r : FAILED", none⟩ ∧
      check_target cfgW probeExcW targetW =
        ⟨"http://kuma/push/a", "down", "ERROR : r : boom", none⟩ := by
  refine ⟨?_, ?_, ?_⟩
  · exact ((check_target_report_table cfgW probeOkW targetW).2.1 950 "OK"
      (by decide)).trans (by decide)
  · exact ((check_target_report_table cfgW probeSoftW targetW).2.2.1
      (by decide)).trans (by decide)
  · exact ((check_target_report_table cfgW probeExcW targetW).2.2.2 "boom"
      (by decide) (by decide)).trans (by decide)

/-- **C4.** One cycle produces exactly one terminal result and one
notifier send per configured target: the list of sends of `run_cycle`
has exactly one entry per target, and the i-th send is precisely the
single `check_target` report of the i-th target.  `asyncio.gather` is
modelled as the ordered list of per-target results; this is sound for
counting sends because each target's coroutine performs exactly one
`notifier.send`, whatever interleaving the scheduler chooses. -/
theorem run_cycle_reports_per_target (cfg : AppConfig)
    (env : ProxyTarget → Nat → HttpResult) :
    (run_cycle cfg env).length = cfg.targets.length ∧
    (∀ (i : Nat) (t : ProxyTarget), cfg.targets[i]? = some t →
      (run_cycle cfg env)[i]? = some (check_target cfg (env t) t)) := by
  constructor
  · simp [run_cycle]
  · intro i t ht
    simp [run_cycle, List.getElem?_map, ht]

/-- Witness for C4: one cycle over the one-target configuration sends
exactly one report, the report of that target. -/
theorem run_cycle_reports_per_target_witness :
    (run_cycle cfgW envW).length = 1 ∧
      (run_cycle cfgW envW)[0]? = some (check_target cfgW (envW targetW) targetW) := by
  obtain ⟨h1, h2⟩ := run_cycle_reports_per_target cfgW envW
  exact ⟨h1.trans (by decide), h2 0 targetW (by decide)⟩

/-- **C8.** `UptimeKumaNotifier.send` never raises to its caller: for
every push URL, status, message, ping and delivery outcome it returns
`.ok` (the exception handler catches every delivery failure); a
transport exception is logged as a push failure with its message, a
non-2xx response is logged as a push failure as well, and the `ping`
query parameter sent is the integer milliseconds when present and the
empty string when absent. -/
theorem send_never_raises (push_url status msg : String) (ping : Option Nat)
    (delivery : PushDelivery) :
    (∃ out, send push_url status msg ping delivery = .ok out) ∧
    (∀ p, ping = some p →
      send_params status msg ping =
        [("status", status), ("msg", msg), ("ping", toString p)]) ∧
    (ping = none →
      send_params status msg ping =
        [("status", status), ("msg", msg), ("ping", "")]) ∧
    (∀ e, delivery = .exc e →
      send push_url status msg ping delivery =
        .ok (push_url, send_params status msg ping, .failed e)) ∧
    (∀ code, delivery = .response code → (code < 200 ∨ 299 < code) →
      ∃ err, send push_url status msg ping delivery =
        .ok (push_url, send_params status msg ping, .failed err)) := by
  refine ⟨?_, ?_, ?_, ?_, ?_⟩
  · cases delivery with
    | exc e => exact ⟨_, rfl⟩
    | response code =>
      cases hrs : raise_for_status code with
      | error e =>
        exact ⟨(push_url, send_params status msg ping, .failed e),
          by simp [send, hrs]⟩
      | ok u =>
        exact ⟨(push_url, send_params status msg ping, .sent status),
          by simp [send, hrs]⟩
  · intro p hp
    simp [send_params, hp]
  · intro hp
    simp [send_params, hp]
  · intro e he
    subst he
    rfl
  · intro code hd hcode
    subst hd
    have hrs : raise_for_status code =
        .error ("Error response for url: status " ++ toString code) := by
      unfold raise_for_status
      rw [if_neg (by omega)]
    exact ⟨"Error response for url: status " ++ toString code, by simp [send, hrs]⟩

/-- Witness for C8: a transport failure and a 503 response are both
caught and logged, and the ping parameter is "950" when present and
"" when absent. -/
theorem send_never_raises_witness :
    send "http://kuma/push/a" "down" "m" none (.exc "net down") =
      .ok ("http://kuma/push/a",
           [("status", "down"), ("msg", "m"), ("ping", "")],
           .failed "net down") ∧
      send_params "up" "m" (some 950) =
        [("status", "up"), ("msg", "m"), ("ping", "950")] := by
  have h1 := send_never_raises "http://kuma/push/a" "down" "m" none (.exc "net down")
  have h2 := send_never_raises "http://kuma/push/a" "up" "m" (some 950) (.exc "x")
  constructor
  · exact (h1.2.2.2.1 "net down" rfl).trans (by rw [h1.2.2.1 rfl])
  · exact (h2.2.1 950 rfl).trans (by decide)

/-- **C9.** When `interval_minutes ≤ 0` the run loop executes exactly
one cycle — the reports of `run_cycle` — and terminates without any
inter-cycle sleep, whatever the value of the "run once" flag. -/
theorem nonpositive_interval_single_cycle (cfg : AppConfig)
    (env : ProxyTarget → Nat → HttpResult) (run_once : Bool) (fuel : Nat)
    (hint : cfg.interval_minutes ≤ 0) (hfuel : 1 ≤ fuel) :
    run_loop cfg env run_once fuel = ([run_cycle cfg env], 0, true) := by
  cases fuel with
  | zero => omega
  | succ n => simp [run_loop, hint]

/-- Witness for C9: interval 0 and "run once" unset still runs exactly
one cycle, performs no sleep, and terminates. -/
theorem nonpositive_interval_single_cycle_witness :
    run_loop cfgW envW false 1 = ([run_cycle cfgW envW], 0, true) :=
  nonpositive_interval_single_cycle cfgW envW false 1 (by decide) (by decide)

lemma urlparse_ok_scheme {p s : String} (h : urlparse p = .ok s) :
    s = urlparse_scheme p := by
  simp only [urlparse] at h
  unfold urlparse_scheme
  split_ifs at h <;> cases h <;> rfl

lemma validate_proxy_url_error_iff (p : String) :
    (∃ e, validate_proxy_url p = .error e) ↔
      ((urlparse p).isOk = false ∨
        lower (urlparse_scheme p) ∉ ALLOWED_PROXY_SCHEMES) := by
  unfold validate_proxy_url
  cases hu : urlparse p with
  | error e =>
    constructor
    · intro _
      exact Or.inl rfl
    · intro _
      exact ⟨e, rfl⟩
  | ok s =>
    obtain rfl : s = urlparse_scheme p := urlparse_ok_scheme hu
    dsimp only
    by_cases h : ALLOWED_PROXY_SCHEMES.contains (lower (urlparse_scheme p))
    · rw [if_pos h]
      constructor
      · rintro ⟨e, he⟩
        exact Except.noConfusion he
      · rintro (hfalse | hn)
        · exact absurd hfalse (by simp [Except.isOk, Except.toBool])
        · exact absurd (List.elem_iff.mp h) hn
    · rw [if_neg h]
      constructor
      · intro _
        exact Or.inr (fun hm => h (List.elem_iff.mpr hm))
      · intro _
        exact ⟨_, rfl⟩

lemma load_target_error_iff (item : RawTarget) :
    (∃ e, load_target item = .error e) ↔ BadTarget item := by
  obtain ⟨op, opu, rm⟩ := item
  cases op with
  | none => simp [load_target, BadTarget]
  | some p =>
    cases opu with
    | none => simp [load_target, BadTarget]
    | some pu =>
      simp only [load_target]
      cases hv : validate_proxy_url p with
      | error e =>
        have hbad := (validate_proxy_url_error_iff p).mp ⟨e, hv⟩
        simp [BadTarget, hbad]
      | ok u =>
        have hnone : ¬ ((urlparse p).isOk = false ∨
            lower (urlparse_scheme p) ∉ ALLOWED_PROXY_SCHEMES) := by
          intro hbad
          obtain ⟨e, he⟩ := (validate_proxy_url_error_iff p).mpr hbad
          rw [he] at hv
          exact Except.noConfusion hv
        simp only [BadTarget]
        constructor
        · rintro ⟨e, he⟩
          exact Except.noConfusion he
        · rintro (h1 | h1 | ⟨q, hq, hbad⟩)
          · exact Option.noConfusion h1
          · exact Option.noConfusion h1
          · injection hq with hq2
            subst hq2
            exact absurd hbad hnone

lemma load_targets_error_iff (ts : List RawTarget) :
    (∃ e, load_targets ts = .error e) ↔ ∃ item ∈ ts, BadTarget item := by
  induction ts with
  | nil => simp [load_targets]
  | cons item rest ih =>
    cases hi : load_target item with
    | error e =>
      simp only [load_targets, hi]
      constructor
      · intro _
        exact ⟨item, List.mem_cons_self item rest,
          (load_target_error_iff item).mp ⟨e, hi⟩⟩
      · intro _
        exact ⟨e, rfl⟩
    | ok t =>
      cases hr : load_targets rest with
      | error e =>
        simp only [load_targets, hi, hr]
        constructor
        · intro _
          obtain ⟨it, hmem, hbad⟩ := ih.mp ⟨e, hr⟩
          exact ⟨it, List.mem_cons_of_mem _ hmem, hbad⟩
        · intro _
          exact ⟨e, rfl⟩
      | ok l =>
        simp only [load_targets, hi, hr]
        constructor
        · rintro ⟨e, he⟩
          exact Except.noConfusion he
        · rintro ⟨it, hmem, hbad⟩
          rcases List.mem_cons.mp hmem with rfl | hmem2
          · obtain ⟨e, he⟩ := (load_target_error_iff it).mpr hbad
            rw [he] at hi
            exact Except.noConfusion hi
          · obtain ⟨e, he⟩ := ih.mpr ⟨it, hmem2, hbad⟩
            rw [he] at hr
            exact Except.noConfusion hr

lemma load_targets_ok_length :
    ∀ {ts : List RawTarget} {l : List ProxyTarget},
      load_targets ts = .ok l → l.length = ts.length := by
  intro ts
  induction ts with
  | nil =>
    intro l h
    simp only [load_targets] at h
    cases h
    rfl
  | cons item rest ih =>
    intro l h
    simp only [load_targets] at h
    cases hi : load_target item with
    | error e =>
      rw [hi] at h
      exact Except.noConfusion h
    | ok t =>
      rw [hi] at h
      cases hr : load_targets rest with
      | error e =>
        rw [hr] at h
        exact Except.noConfusion h
      | ok l2 =>
        rw [hr] at h
        cases h
        simp [ih hr]

/-- **C7 (counterexample to the claim as stated).** The claim's "if and
only if" fails on the code: the document `rawIpv6W` satisfies none of
the claim's rejection conditions — every required field is present, the
targets list is nonempty, its one target has both `proxy` and
`push_url`, and the proxy URL's scheme is "http", inside the
allow-list — yet `load_config` rejects it, because CPython's `urlparse`
itself raises `ValueError("Invalid IPv6 URL")` on the unbalanced
bracketed netloc of "http://[::1".  (Conversely `load_config` accepts
`rawSpaceW`, whose proxy " http://proxy:8080" carries a leading space
that `urlparse` strips before extracting the scheme — so that target
does not have a scheme outside the allow-list either.) -/
theorem load_config_urlparse_rejection :
    load_config rawIpv6W = .error "Invalid IPv6 URL" ∧
      ¬ ClaimedRejection rawIpv6W ∧
      lower (urlparse_scheme "http://[::1") = "http" ∧
      (load_config rawSpaceW).isOk = true := by
  refine ⟨rfl, ?_, by decide, rfl⟩
  rintro (hmf | hempty | ⟨ts, hts, it, hmem, hbad⟩)
  · rcases hmf with h | h | h | h | h | h | h <;> exact Option.noConfusion h
  · exact absurd hempty (by decide)
  · rw [show rawIpv6W.targets = some [rawIpv6TargetW] from rfl] at hts
    injection hts with h2
    subst h2
    obtain rfl := List.mem_singleton.mp hmem
    rcases hbad with h | h | ⟨p, hp, hsch⟩
    · exact Option.noConfusion h
    · exact Option.noConfusion h
    · rw [show rawIpv6TargetW.proxy = some "http://[::1" from rfl] at hp
      injection hp with hp2
      subst hp2
      exact hsch (by decide)

/-- **C7 (amended).** `load_config` fails with a validation error
**iff** a required field is absent, or the targets list is empty, or
some target lacks `proxy` or `push_url`, or `urlparse` itself raises a
`ValueError` on some target's proxy URL (a netloc whose bracket use is
unbalanced or whose bracketed host is an invalid IPv6/IPvFuture
literal), or some target's proxy URL scheme is (case-insensitively)
outside the allow-list http/https/socks4/socks5/socks5h — the scheme
being the one `urlparse` extracts after stripping leading
control/space characters and removing tabs and newlines.  The original
claim omitted the urlparse-error cause; see
`load_config_urlparse_rejection`.  The witness instantiates the two
cases named by the claim: a document with `targets: []` and a document
with an "ftp" proxy are both rejected. -/
theorem load_config_rejects_iff (raw : RawConfig) :
    (∃ e, load_config raw = .error e) ↔
      (MissingField raw ∨ raw.targets = some [] ∨
        ∃ ts, raw.targets = some ts ∧ ∃ item ∈ ts, BadTarget item) := by
  obtain ⟨tu, es, rt, tos, rds, im, tg⟩ := raw
  cases tu with
  | none => simp [load_config, MissingField]
  | some tu =>
    cases es with
    | none => simp [load_config, MissingField]
    | some es =>
      cases rt with
      | none => simp [load_config, MissingField]
      | some rt =>
        cases tos with
        | none => simp [load_config, MissingField]
        | some tos =>
          cases rds with
          | none => simp [load_config, MissingField]
          | some rds =>
            cases im with
            | none => simp [load_config, MissingField]
            | some im =>
              cases tg with
              | none => simp [load_config, MissingField]
              | some tgl =>
                have hmf : ¬ MissingField
                    ⟨some tu, some es, some rt, some tos, some rds, some im,
                     some tgl⟩ := by
                  simp [MissingField]
                simp only [load_config]
                cases hlt : load_targets tgl with
                | error e =>
                  constructor
                  · intro _
                    exact Or.inr (Or.inr ⟨tgl, rfl,
                      (load_targets_error_iff tgl).mp ⟨e, hlt⟩⟩)
                  · intro _
                    exact ⟨e, rfl⟩
                | ok l =>
                  dsimp only
                  by_cases hl : l.isEmpty
                  · rw [if_pos hl]
                    have htgl : tgl = [] := by
                      have hlen := load_targets_ok_length hlt
                      cases l with
                      | nil =>
                        cases tgl with
                        | nil => rfl
                        | cons a b => simp at hlen
                      | cons a b => simp [List.isEmpty] at hl
                    constructor
                    · intro _
                      exact Or.inr (Or.inl (by rw [htgl]))
                    · intro _
                      exact ⟨"No targets defined", rfl⟩
                  · rw [if_neg hl]
                    constructor
                    · rintro ⟨e, he⟩
                      exact Except.noConfusion he
                    · rintro (hmf2 | hempty | ⟨ts, hts, it, hmem, hbad⟩)
                      · exact absurd hmf2 hmf
                      · injection hempty with h2
                        subst h2
                        simp only [load_targets] at hlt
                        cases hlt
                        simp [List.isEmpty] at hl
                      · injection hts with h2
                        subst h2
                        obtain ⟨e, he⟩ :=
                          (load_targets_error_iff tgl).mpr ⟨it, hmem, hbad⟩
                        rw [he] at hlt
                        exact Except.noConfusion hlt

/-- Witness for C7: the document with `targets: []` and the document
with an "ftp"-scheme proxy are both rejected by `load_config`. -/
theorem load_config_rejects_iff_witness :
    (load_config rawEmptyTargetsW).isOk = false ∧
      (load_config rawFtpW).isOk = false := by
  constructor
  · obtain ⟨e, he⟩ := (load_config_rejects_iff rawEmptyTargetsW).mpr
      (Or.inr (Or.inl rfl))
    rw [he]
    rfl
  · obtain ⟨e, he⟩ := (load_config_rejects_iff rawFtpW).mpr
      (Or.inr (Or.inr ⟨[rawFtpTargetW], rfl,
        ⟨rawFtpTargetW, by simp,
          Or.inr (Or.inr ⟨"ftp://proxy:8080", rfl, by decide⟩)⟩⟩))
    rw [he]
    rfl

/-- **C10.** `load_config` performs no lower-bound check on `retries`:
documents with `retries = 0` and `retries = -2` are accepted.  For any
configuration with `retries ≤ 0`, the attempt loop body never runs —
zero probe invocations and zero inter-attempt delays — and the driver
nonetheless returns the exhausted-retries triple
`(False, None, "FAILED")`, so `check_target` reports the target down
with the `Down(FAILED)` message, as if its retries had been
exhausted. -/
theorem retries_zero_accepted_reports_failed :
    ((∃ c, load_config rawRetriesZeroW = .ok c ∧ c.retries = 0) ∧
     (∃ c, load_config rawRetriesNegW = .ok c ∧ c.retries = -2)) ∧
    (∀ (cfg : AppConfig) (probe : Nat → HttpResult), cfg.retries ≤ 0 →
      test_with_retries cfg probe = ⟨(false, none, "FAILED"), 0, []⟩) ∧
    (∀ (cfg : AppConfig) (probe : Nat → HttpResult) (t : ProxyTarget),
      cfg.retries ≤ 0 →
      check_target cfg probe t =
        ⟨t.push_url, "down", "FAILED : " ++ display_identifier t ++ " : FAILED",
         none⟩) := by
  refine ⟨⟨?_, ?_⟩, ?_, ?_⟩
  · exact ⟨⟨"http://example.com/gen_204", 200, 0, 5.0, 1.5, 0,
      [⟨"http://proxy:8080", "http://kuma/push/a", some "r"⟩]⟩, rfl, rfl⟩
  · exact ⟨⟨"http://example.com/gen_204", 200, -2, 5.0, 1.5, 0,
      [⟨"http://proxy:8080", "http://kuma/push/a", some "r"⟩]⟩, rfl, rfl⟩
  · intro cfg probe h
    have hz : cfg.retries.toNat = 0 := by omega
    simp only [test_with_retries, hz]
    rfl
  · intro cfg probe t h
    have hz : cfg.retries.toNat = 0 := by omega
    simp only [check_target, test_with_retries, hz]
    rfl

/-- Witness for C10: with `retries = 0` the driver makes zero probes and
zero delays and the target is reported down as FAILED. -/
theorem retries_zero_accepted_reports_failed_witness :
    test_with_retries cfgZeroW probeSoftW = ⟨(false, none, "FAILED"), 0, []⟩ ∧
      check_target cfgZeroW probeSoftW targetW =
        ⟨"http://kuma/push/a", "down", "FAILED : r : FAILED", none⟩ := by
  have h := retries_zero_accepted_reports_failed
  constructor
  · exact h.2.1 cfgZeroW probeSoftW (by decide)
  · exact (h.2.2 cfgZeroW probeSoftW targetW (by decide)).trans (by decide)

end ProxyChecker
